import Mathlib

/-!
# OTP relay service (`src/services/OTPService.js`)

A shallow embedding of the `OTPService` class: the two phone helpers, the two
error classifiers and the two asynchronous operations `sendOTP` / `verifyOTP`.

Modelling conventions.

* A JS string is a Lean `String`.  The regular expressions of the source carry no
  `u` flag and only mention `\d` / `\D`, and every `includes` needle is ASCII, so
  working on characters instead of UTF-16 code units gives the same answers.
* Parameters are typed as the JSDoc of each method says (`@param {string}`); a
  value that may be `undefined` / `null` is an `Option`, with `none` for both.
* `String.prototype.toLowerCase` and `axios.get` are built-ins that are not code of
  the repository: both are parameters.  `axios.get` either resolves to a response
  or rejects with an error object, hence `Except`.
* Each operation returns, next to its result, the list of provider requests it
  issued, in order.
-/

namespace OTPService

/-! ## JavaScript primitives used by the source -/

/-- The character class `\d` of a JS regular expression: `0` to `9`. -/
def isDigit (c : Char) : Bool :=
  decide (48 ≤ c.toNat) && decide (c.toNat ≤ 57)

/-- The call `s.replace(/\D/g, '')`: every character outside `\d` is removed. -/
def stripNonDigits (s : String) : String :=
  ⟨s.data.filter isDigit⟩

/-- A matcher for the anchored pattern `^\d{n}$` run on the characters `cs`. -/
def matchDigits : Nat → List Char → Bool
  | 0, [] => true
  | 0, _ :: _ => false
  | _ + 1, [] => false
  | n + 1, c :: cs => isDigit c && matchDigits n cs

/-- The call `/^\d{n}$/.test(s)`. -/
def testDigits (n : Nat) (s : String) : Bool :=
  matchDigits n s.data

/-- Whether `needle` starts the character list `hay`. -/
def startsWith : List Char → List Char → Bool
  | _, [] => true
  | [], _ :: _ => false
  | h :: hs, n :: ns => decide (h = n) && startsWith hs ns

/-- The search behind `includes`: try every start position of `hay` in turn. -/
def includesFrom : List Char → List Char → Bool
  | [], needle => startsWith [] needle
  | h :: hs, needle => startsWith (h :: hs) needle || includesFrom hs needle

/-- The call `s.includes(needle)`. -/
def includes (s needle : String) : Bool :=
  includesFrom s.data needle.data

/-- JS truthiness of a value that is a string, `undefined` or `null`. -/
def truthy : Option String → Bool
  | none => false
  | some s => decide (s ≠ "")

/-- The expression `a || b` on values that are strings, `undefined` or `null`. -/
def jsOr (a b : Option String) : Option String :=
  if truthy a then a else b

/-- The expression `a || d` where the right operand is a string literal. -/
def jsOrDefault (a : Option String) (d : String) : String :=
  match a with
  | none => d
  | some s => if s ≠ "" then s else d

/-- An ASCII instance of `toLowerCase`: `A`..`Z` go to `a`..`z`, the rest stays.
It agrees with the built-in on ASCII strings and is used to run the model. -/
def asciiToLowerCase (s : String) : String :=
  ⟨s.data.map fun c => if 65 ≤ c.toNat ∧ c.toNat ≤ 90 then Char.ofNat (c.toNat + 32) else c⟩

/-! ## Data exchanged with the provider -/

/-- The JSON body of a provider answer; each field may be absent. -/
structure Body where
  Status : Option String
  Details : Option String
  message : Option String
deriving DecidableEq, Repr

/-- The options object handed to `axios.get` together with the URL. -/
structure Request where
  url : String
  timeout : Nat
  headers : List (String × String)
deriving DecidableEq, Repr

/-- A resolved `axios.get`: the source only reads `response.data`. -/
structure Response where
  data : Body
deriving DecidableEq, Repr

/-- The field `error.response` of a rejected request; `data` may be missing. -/
structure ErrorResponse where
  data : Option Body
deriving DecidableEq, Repr

/-- A thrown error object as the `catch` blocks read it. -/
structure JSError where
  code : Option String
  response : Option ErrorResponse
  message : Option String
deriving DecidableEq, Repr

/-- The value `new Error(msg)`: only `message` is set. -/
def JSError.ofMessage (msg : String) : JSError :=
  { code := none, response := none, message := some msg }

/-- The built-in `axios.get`, as a function of the request. -/
abbrev Http := Request → Except JSError Response

/-- The object returned by `sendOTP`. -/
inductive SendResult where
  | success (sessionId : Option String) (message : String) (phone : String)
  | failure (error : String)
deriving DecidableEq, Repr

/-- The object returned by `verifyOTP`. -/
inductive VerifyResult where
  | success (message : String)
  | failure (error : String)
deriving DecidableEq, Repr

/-- What one call of an operation did: requests issued, then the value. -/
structure Run (α : Type) where
  requests : List Request
  value : α
deriving Repr

/-- The fields set by the constructor of the class. -/
structure Service where
  API_BASE_URL : String
  API_KEY : Option String
deriving DecidableEq, Repr

/-- The constructor: the base URL is fixed, the key comes from the environment. -/
def Service.new (key : Option String) : Service :=
  { API_BASE_URL := "https://2factor.in/API/V1", API_KEY := key }

/-! ## Phone helpers -/

/-- Source lines 21-27. -/
def validatePhoneNumber (phone : String) : Bool :=
  let cleanPhone := stripNonDigits phone
  decide (cleanPhone.length = 10) && testDigits 10 cleanPhone

/-- Source lines 34-36. -/
def formatPhoneNumber (phone : String) : String :=
  stripNonDigits phone

/-! ## Error classifiers -/

/-- Source lines 43-68. -/
def parseErrorMessage (toLowerCase : String → String) (errorMessage : Option String) : String :=
  match errorMessage with
  | none => "Failed to send OTP"
  | some msg =>
    if msg = "" then "Failed to send OTP"
    else
      let error := toLowerCase msg
      if includes error "invalid number" || includes error "invalid mobile" then
        "Invalid phone number format. Please check and try again."
      else if includes error "dnd" || includes error "do not disturb" then
        "Your number is on DND. Please disable DND or try with a different number."
      else if includes error "rate limit" || includes error "too many requests" then
        "Too many requests. Please wait a few minutes before trying again."
      else if includes error "insufficient balance" || includes error "low balance" then
        "Service temporarily unavailable. Please try again later."
      else if includes error "operator issue" || includes error "network error" then
        "Network issue with your carrier. Please try again in a few minutes."
      else if includes error "blocked" || includes error "blacklist" then
        "This number cannot receive OTP messages. Please contact support."
      else msg

/-- Source lines 75-94. -/
def parseVerificationError (toLowerCase : String → String) (errorMessage : Option String) :
    String :=
  match errorMessage with
  | none => "Invalid verification code. Please check and try again."
  | some msg =>
    if msg = "" then "Invalid verification code. Please check and try again."
    else
      let error := toLowerCase msg
      if includes error "invalid otp" || includes error "wrong otp"
          || includes error "incorrect" then
        "Invalid OTP code. Please check the code and try again."
      else if includes error "expired" || includes error "timeout" then
        "OTP code has expired. Please request a new code."
      else if includes error "already verified" || includes error "already used" then
        "This OTP code has already been used. Please request a new code."
      else if includes error "session not found" || includes error "invalid session" then
        "Verification session not found. Please request a new OTP."
      else "Verification failed. Please try again or request a new code."

/-! ## Sending -/

/-- The request built at source lines 120-128. -/
def sendRequest (svc : Service) (cleanPhone : String) : Request :=
  { url := svc.API_BASE_URL ++ "/" ++ (svc.API_KEY.getD "undefined") ++ "/SMS/+91"
      ++ cleanPhone ++ "/AUTOGEN/OTP1"
    timeout := 10000
    headers := [("Content-Type", "application/json")] }

/-- The `try` block of `sendOTP` (source lines 102-152): it returns a result or
throws, after the requests listed. -/
def sendOTPTry (toLowerCase : String → String) (http : Http) (svc : Service)
    (phoneNumber : String) : Run (Except JSError SendResult) :=
  if !truthy svc.API_KEY then
    ⟨[], .error (JSError.ofMessage "2Factor.in API key not configured")⟩
  else
    let cleanPhone := formatPhoneNumber phoneNumber
    if !validatePhoneNumber cleanPhone then
      ⟨[], .ok (.failure "Invalid phone number format. Please enter a valid 10-digit number.")⟩
    else
      let req := sendRequest svc cleanPhone
      match http req with
      | .error e => ⟨[req], .error e⟩
      | .ok response =>
        if response.data.Status = some "Success" then
          let sessionId := response.data.Details
          ⟨[req], .ok (.success sessionId "OTP sent successfully to your phone number."
            ("+91" ++ cleanPhone))⟩
        else
          let errorMessage := parseErrorMessage toLowerCase response.data.Details
          ⟨[req], .ok (.failure errorMessage)⟩

/-- The `catch` block of `sendOTP` (source lines 153-184). -/
def sendOTPCatch (toLowerCase : String → String) (error : JSError) : SendResult :=
  if error.code = some "ENOTFOUND" ∨ error.code = some "ECONNREFUSED" then
    .failure "Network error. Please check your internet connection and try again."
  else if error.code = some "ECONNABORTED" then
    .failure "Request timeout. Please try again."
  else
    match error.response with
    | some response =>
      let errorMessage := parseErrorMessage toLowerCase
        (jsOr (response.data.bind (·.Details)) (response.data.bind (·.message)))
      .failure errorMessage
    | none =>
      .failure (jsOrDefault error.message "An unexpected error occurred. Please try again.")

/-- Source lines 101-185. -/
def sendOTP (toLowerCase : String → String) (http : Http) (svc : Service)
    (phoneNumber : String) : Run SendResult :=
  let r := sendOTPTry toLowerCase http svc phoneNumber
  match r.value with
  | .ok result => ⟨r.requests, result⟩
  | .error e => ⟨r.requests, sendOTPCatch toLowerCase e⟩

/-! ## Verifying -/

/-- The request built at source lines 217-225. -/
def verifyRequest (svc : Service) (sessionId otp : String) : Request :=
  { url := svc.API_BASE_URL ++ "/" ++ (svc.API_KEY.getD "undefined") ++ "/SMS/VERIFY/"
      ++ sessionId ++ "/" ++ otp
    timeout := 10000
    headers := [("Content-Type", "application/json")] }

/-- The `try` block of `verifyOTP` (source lines 194-245). -/
def verifyOTPTry (toLowerCase : String → String) (http : Http) (svc : Service)
    (sessionId otp : String) : Run (Except JSError VerifyResult) :=
  if !truthy svc.API_KEY then
    ⟨[], .error (JSError.ofMessage "2Factor.in API key not configured")⟩
  else if sessionId = "" then
    ⟨[], .ok (.failure "Session ID is required for verification.")⟩
  else if otp = "" ∨ !testDigits 6 otp then
    ⟨[], .ok (.failure "Please enter a valid 6-digit OTP code.")⟩
  else
    let req := verifyRequest svc sessionId otp
    match http req with
    | .error e => ⟨[req], .error e⟩
    | .ok response =>
      if response.data.Status = some "Success" then
        ⟨[req], .ok (.success "OTP verified successfully.")⟩
      else
        let errorMessage := parseVerificationError toLowerCase response.data.Details
        ⟨[req], .ok (.failure errorMessage)⟩

/-- The `catch` block of `verifyOTP` (source lines 246-277). -/
def verifyOTPCatch (toLowerCase : String → String) (error : JSError) : VerifyResult :=
  if error.code = some "ENOTFOUND" ∨ error.code = some "ECONNREFUSED" then
    .failure "Network error. Please check your internet connection and try again."
  else if error.code = some "ECONNABORTED" then
    .failure "Request timeout. Please try again."
  else
    match error.response with
    | some response =>
      let errorMessage := parseVerificationError toLowerCase
        (jsOr (response.data.bind (·.Details)) (response.data.bind (·.message)))
      .failure errorMessage
    | none =>
      .failure (jsOrDefault error.message
        "An unexpected error occurred during verification. Please try again.")

/-- Source lines 193-278. -/
def verifyOTP (toLowerCase : String → String) (http : Http) (svc : Service)
    (sessionId otp : String) : Run VerifyResult :=
  let r := verifyOTPTry toLowerCase http svc sessionId otp
  match r.value with
  | .ok result => ⟨r.requests, result⟩
  | .error e => ⟨r.requests, verifyOTPCatch toLowerCase e⟩

/-! ## Vocabulary of the statements -/

/-- The ten ASCII digit characters. -/
def asciiDigits : List Char :=
  ['0', '1', '2', '3', '4', '5', '6', '7', '8', '9']

/-- A provider stub that rejects every request with a plain error. -/
def failingHttp : Http :=
  fun _ => .error (JSError.ofMessage "socket hang up")

/-- A provider stub that resolves every request with the given body. -/
def constHttp (b : Body) : Http :=
  fun _ => .ok ⟨b⟩

/-- The substrings looked for by the six rules of `parseErrorMessage`, rule by rule. -/
def sendRuleSubstrings : List String :=
  ["invalid number", "invalid mobile", "dnd", "do not disturb", "rate limit",
   "too many requests", "insufficient balance", "low balance", "operator issue",
   "network error", "blocked", "blacklist"]

/-- The substrings looked for by the first three rules of `parseVerificationError`. -/
def verifyEarlierSubstrings : List String :=
  ["invalid otp", "wrong otp", "incorrect", "expired", "timeout", "already verified",
   "already used"]

/-! ## Lemmas on the primitives -/

theorem isDigit_iff (c : Char) : isDigit c = true ↔ c ∈ asciiDigits := by
  constructor
  · intro h
    simp only [isDigit, Bool.and_eq_true, decide_eq_true_eq] at h
    obtain ⟨h1, h2⟩ := h
    have hc : c = Char.ofNat c.toNat := (Char.ofNat_toNat c).symm
    generalize c.toNat = n at h1 h2 hc
    subst hc
    interval_cases n <;> decide
  · intro h
    simp only [asciiDigits, List.mem_cons, List.mem_singleton, List.not_mem_nil, or_false] at h
    rcases h with h | h | h | h | h | h | h | h | h | h <;> subst h <;> decide

theorem countP_isDigit (cs : List Char) :
    cs.countP isDigit = cs.countP (fun c => decide (c ∈ asciiDigits)) := by
  apply List.countP_congr
  intro c _
  simp [isDigit_iff]

theorem filter_isDigit (cs : List Char) :
    cs.filter isDigit = cs.filter (fun c => decide (c ∈ asciiDigits)) := by
  apply List.filter_congr
  intro c _
  by_cases h : c ∈ asciiDigits
  · simp [h, (isDigit_iff c).2 h]
  · have : isDigit c = false := by
      cases hd : isDigit c
      · rfl
      · exact absurd ((isDigit_iff c).1 hd) h
    simp [h, this]

theorem matchDigits_iff (n : Nat) (cs : List Char) :
    matchDigits n cs = true ↔ cs.length = n ∧ ∀ c ∈ cs, c ∈ asciiDigits := by
  induction n generalizing cs with
  | zero =>
    cases cs with
    | nil => simp [matchDigits]
    | cons c cs => simp [matchDigits]
  | succ n ih =>
    cases cs with
    | nil => simp [matchDigits]
    | cons c cs =>
      simp only [matchDigits, Bool.and_eq_true, ih, isDigit_iff, List.length_cons,
        Nat.add_right_cancel_iff, List.mem_cons, forall_eq_or_imp]
      tauto

theorem matchDigits_filter (cs : List Char) :
    matchDigits (cs.filter isDigit).length (cs.filter isDigit) = true := by
  rw [matchDigits_iff]
  refine ⟨rfl, ?_⟩
  intro c hc
  exact (isDigit_iff c).1 (List.mem_filter.1 hc).2

theorem startsWith_iff (hay needle : List Char) :
    startsWith hay needle = true ↔ needle <+: hay := by
  induction hay generalizing needle with
  | nil =>
    cases needle with
    | nil => simp [startsWith]
    | cons n ns => simp [startsWith]
  | cons h hs ih =>
    cases needle with
    | nil => simp [startsWith]
    | cons n ns =>
      simp only [startsWith, Bool.and_eq_true, decide_eq_true_eq, ih, List.cons_prefix_cons]
      constructor
      · rintro ⟨rfl, h2⟩
        exact ⟨rfl, h2⟩
      · rintro ⟨rfl, h2⟩
        exact ⟨rfl, h2⟩

theorem includesFrom_iff (hay needle : List Char) :
    includesFrom hay needle = true ↔ needle <:+: hay := by
  induction hay with
  | nil =>
    simp only [includesFrom, startsWith_iff, List.prefix_nil, List.infix_nil]
  | cons h hs ih =>
    simp only [includesFrom, Bool.or_eq_true, startsWith_iff, ih, List.infix_cons_iff]

theorem includes_iff (s needle : String) :
    includes s needle = true ↔ needle.data <:+: s.data :=
  includesFrom_iff s.data needle.data

theorem includes_eq_false (s needle : String) (h : ¬ needle.data <:+: s.data) :
    includes s needle = false := by
  cases hi : includes s needle
  · rfl
  · exact absurd ((includes_iff s needle).1 hi) h

theorem stripNonDigits_idem (s : String) : stripNonDigits (stripNonDigits s) = stripNonDigits s := by
  simp [stripNonDigits, List.filter_filter]

theorem validatePhoneNumber_eq (s : String) :
    validatePhoneNumber s = decide (s.data.countP isDigit = 10) := by
  have hlen : (stripNonDigits s).length = s.data.countP isDigit := by
    simp [stripNonDigits, String.length, List.countP_eq_length_filter]
  by_cases h : s.data.countP isDigit = 10
  · have hm : testDigits 10 (stripNonDigits s) = true := by
      have := matchDigits_filter s.data
      rw [← List.countP_eq_length_filter, h] at this
      simpa [testDigits, stripNonDigits] using this
    simp [validatePhoneNumber, hlen, h, hm]
  · simp [validatePhoneNumber, hlen, h]

theorem sublist_filter_of_all {d cs : List Char} (hsub : d.Sublist cs)
    (hd : ∀ c ∈ d, c ∈ asciiDigits) : d.Sublist (cs.filter isDigit) := by
  have h := hsub.filter isDigit
  have hid : d.filter isDigit = d := by
    apply List.filter_eq_self.2
    intro c hc
    exact (isDigit_iff c).2 (hd c hc)
  rwa [hid] at h

theorem truthy_iff (k : Option String) : truthy k = true ↔ ∃ key, k = some key ∧ key ≠ "" := by
  cases k with
  | none => simp [truthy]
  | some key => simp [truthy]

/-! ## Phone validation and formatting -/

/-- C1: `validatePhoneNumber s` is true exactly when `s` holds 10 ASCII digit
characters, whatever else stands between them; then `formatPhoneNumber s` has
length 10, is made of digits only, is a subsequence of `s`, and contains every
digit subsequence of `s` (so it is the digits of `s` in their order); when the
digit count differs from 10 the validator answers false. -/
theorem validatePhoneNumber_spec (s : String) :
    (validatePhoneNumber s = true ↔ s.data.countP (fun c => decide (c ∈ asciiDigits)) = 10) ∧
    (validatePhoneNumber s = true →
      (formatPhoneNumber s).length = 10 ∧
      (∀ c ∈ (formatPhoneNumber s).data, c ∈ asciiDigits) ∧
      (formatPhoneNumber s).data.Sublist s.data ∧
      (formatPhoneNumber s).data = s.data.filter (fun c => decide (c ∈ asciiDigits)) ∧
      ∀ d : List Char, d.Sublist s.data → (∀ c ∈ d, c ∈ asciiDigits) →
        d.Sublist (formatPhoneNumber s).data) ∧
    (s.data.countP (fun c => decide (c ∈ asciiDigits)) ≠ 10 → validatePhoneNumber s = false) := by
  have hv := validatePhoneNumber_eq s
  rw [countP_isDigit] at hv
  refine ⟨by simp [hv], ?_, by intro h; simp [hv, h]⟩
  intro h
  have h10 : s.data.countP (fun c => decide (c ∈ asciiDigits)) = 10 := by simpa [hv] using h
  refine ⟨?_, ?_, ?_, ?_, ?_⟩
  · rw [← h10, ← countP_isDigit]
    simp [formatPhoneNumber, stripNonDigits, String.length, List.countP_eq_length_filter]
  · intro c hc
    exact (isDigit_iff c).1 (List.mem_filter.1 hc).2
  · exact List.filter_sublist s.data
  · exact filter_isDigit s.data
  · intro d hsub hd
    exact sublist_filter_of_all hsub hd

/-- The instance of C1 at `"98-7654-3210"`, a string with ten digits and two dashes. -/
theorem validatePhoneNumber_spec_witness :
    validatePhoneNumber "98-7654-3210" = true ∧
    (formatPhoneNumber "98-7654-3210").length = 10 ∧
    (formatPhoneNumber "98-7654-3210").data = "9876543210".data ∧
    validatePhoneNumber "12345" = false :=
  ⟨(validatePhoneNumber_spec "98-7654-3210").1.2 (by decide),
   ((validatePhoneNumber_spec "98-7654-3210").2.1 (by decide)).1,
   (((validatePhoneNumber_spec "98-7654-3210").2.1 (by decide)).2.2.2.1).trans (by decide),
   (validatePhoneNumber_spec "12345").2.2 (by decide)⟩

/-! ## The format check of `verifyOTP` -/

theorem verifyOTPTry_checked (toLowerCase : String → String) (http : Http) (svc : Service)
    (sessionId otp : String) (hkey : truthy svc.API_KEY = true) (hsid : sessionId ≠ "")
    (hotp : testDigits 6 otp = true) :
    verifyOTPTry toLowerCase http svc sessionId otp =
      match http (verifyRequest svc sessionId otp) with
      | .error e => ⟨[verifyRequest svc sessionId otp], .error e⟩
      | .ok response =>
        if response.data.Status = some "Success" then
          ⟨[verifyRequest svc sessionId otp], .ok (.success "OTP verified successfully.")⟩
        else
          ⟨[verifyRequest svc sessionId otp],
            .ok (.failure (parseVerificationError toLowerCase response.data.Details))⟩ := by
  have hne : otp ≠ "" := by
    rintro rfl
    simp [testDigits, matchDigits] at hotp
  simp [verifyOTPTry, hkey, hsid, hotp, hne]

theorem verifyOTP_requests_checked (toLowerCase : String → String) (http : Http) (svc : Service)
    (sessionId otp : String) (hkey : truthy svc.API_KEY = true) (hsid : sessionId ≠ "")
    (hotp : testDigits 6 otp = true) :
    (verifyOTP toLowerCase http svc sessionId otp).requests =
      [verifyRequest svc sessionId otp] := by
  simp only [verifyOTP, verifyOTPTry_checked toLowerCase http svc sessionId otp hkey hsid hotp]
  cases http (verifyRequest svc sessionId otp) with
  | error e => rfl
  | ok response =>
    by_cases hs : response.data.Status = some "Success" <;> simp [hs]

theorem verifyOTP_rejected (toLowerCase : String → String) (http : Http) (svc : Service)
    (sessionId otp : String) (hkey : truthy svc.API_KEY = true) (hsid : sessionId ≠ "")
    (hotp : testDigits 6 otp = false) :
    verifyOTP toLowerCase http svc sessionId otp =
      ⟨[], .failure "Please enter a valid 6-digit OTP code."⟩ := by
  simp [verifyOTP, verifyOTPTry, hkey, hsid, hotp]

/-- C2: with an API key configured and a non-empty session id, `verifyOTP` issues
its provider request exactly when `otp` is six ASCII digits and nothing else; for
any other `otp` it issues no request and returns the failure
`Please enter a valid 6-digit OTP code.` -/
theorem verifyOTP_format_check (toLowerCase : String → String) (http : Http) (svc : Service)
    (sessionId otp : String) (hkey : truthy svc.API_KEY = true) (hsid : sessionId ≠ "") :
    ((verifyOTP toLowerCase http svc sessionId otp).requests = [verifyRequest svc sessionId otp]
      ↔ (otp.data.length = 6 ∧ ∀ c ∈ otp.data, c ∈ asciiDigits)) ∧
    (¬ (otp.data.length = 6 ∧ ∀ c ∈ otp.data, c ∈ asciiDigits) →
      (verifyOTP toLowerCase http svc sessionId otp).requests = [] ∧
      (verifyOTP toLowerCase http svc sessionId otp).value =
        .failure "Please enter a valid 6-digit OTP code.") := by
  have hiff := matchDigits_iff 6 otp.data
  constructor
  · constructor
    · intro hreq
      by_contra hbad
      have hotp : testDigits 6 otp = false := by
        cases ht : testDigits 6 otp
        · rfl
        · exact absurd (hiff.1 ht) hbad
      rw [verifyOTP_rejected toLowerCase http svc sessionId otp hkey hsid hotp] at hreq
      simp at hreq
    · intro hgood
      exact verifyOTP_requests_checked toLowerCase http svc sessionId otp hkey hsid (hiff.2 hgood)
  · intro hbad
    have hotp : testDigits 6 otp = false := by
      cases ht : testDigits 6 otp
      · rfl
      · exact absurd (hiff.1 ht) hbad
    rw [verifyOTP_rejected toLowerCase http svc sessionId otp hkey hsid hotp]
    exact ⟨rfl, rfl⟩

/-- The instance of C2 at the otp `"12E456"`: no request, the format failure. -/
theorem verifyOTP_format_check_witness :
    (verifyOTP asciiToLowerCase failingHttp (Service.new (some "KEY")) "sess_abc" "12E456").requests
      = [] ∧
    (verifyOTP asciiToLowerCase failingHttp (Service.new (some "KEY")) "sess_abc" "12E456").value
      = .failure "Please enter a valid 6-digit OTP code." :=
  (verifyOTP_format_check asciiToLowerCase failingHttp (Service.new (some "KEY")) "sess_abc"
    "12E456" (by decide) (by decide)).2 (by decide)

/-! ## Dispatch of `sendOTP` -/

theorem validate_format (phone : String) :
    validatePhoneNumber (formatPhoneNumber phone) = validatePhoneNumber phone := by
  simp [validatePhoneNumber, formatPhoneNumber, stripNonDigits_idem]

theorem sendOTPTry_valid (toLowerCase : String → String) (http : Http) (svc : Service)
    (phone : String) (hkey : truthy svc.API_KEY = true) (hv : validatePhoneNumber phone = true) :
    sendOTPTry toLowerCase http svc phone =
      match http (sendRequest svc (formatPhoneNumber phone)) with
      | .error e => ⟨[sendRequest svc (formatPhoneNumber phone)], .error e⟩
      | .ok response =>
        if response.data.Status = some "Success" then
          ⟨[sendRequest svc (formatPhoneNumber phone)],
            .ok (.success response.data.Details "OTP sent successfully to your phone number."
              ("+91" ++ formatPhoneNumber phone))⟩
        else
          ⟨[sendRequest svc (formatPhoneNumber phone)],
            .ok (.failure (parseErrorMessage toLowerCase response.data.Details))⟩ := by
  simp [sendOTPTry, hkey, validate_format, hv]

theorem sendOTP_requests_valid (toLowerCase : String → String) (http : Http) (svc : Service)
    (phone : String) (hkey : truthy svc.API_KEY = true) (hv : validatePhoneNumber phone = true) :
    (sendOTP toLowerCase http svc phone).requests =
      [sendRequest svc (formatPhoneNumber phone)] := by
  simp only [sendOTP, sendOTPTry_valid toLowerCase http svc phone hkey hv]
  cases http (sendRequest svc (formatPhoneNumber phone)) with
  | error e => rfl
  | ok response =>
    by_cases hs : response.data.Status = some "Success" <;> simp [hs]

theorem sendOTP_requests_invalid (toLowerCase : String → String) (http : Http) (svc : Service)
    (phone : String) (hv : validatePhoneNumber phone = false) :
    (sendOTP toLowerCase http svc phone).requests = [] := by
  by_cases hkey : truthy svc.API_KEY = true
  · simp [sendOTP, sendOTPTry, hkey, validate_format, hv]
  · simp [sendOTP, sendOTPTry, hkey]

/-- C3: with an API key `key` configured, if stripping the non-digits of `phone`
leaves the ten digits `d`, then `sendOTP` issues exactly one provider request, its
URL is `{base}/{key}/SMS/+91d/AUTOGEN/OTP1`, and when the provider answers it with
status `Success` the result is a success whose session id is the `Details` of the
answer and whose phone is `+91` followed by `d`. -/
theorem sendOTP_dispatch (toLowerCase : String → String) (http : Http) (svc : Service)
    (phone key d : String) (hkey : svc.API_KEY = some key) (hne : key ≠ "")
    (hd : d.data = phone.data.filter (fun c => decide (c ∈ asciiDigits)))
    (h10 : d.length = 10) :
    ∃ req : Request,
      (sendOTP toLowerCase http svc phone).requests = [req] ∧
      req.url = svc.API_BASE_URL ++ "/" ++ key ++ "/SMS/+91" ++ d ++ "/AUTOGEN/OTP1" ∧
      ∀ b : Body, http req = .ok ⟨b⟩ → b.Status = some "Success" →
        (sendOTP toLowerCase http svc phone).value =
          .success b.Details "OTP sent successfully to your phone number." ("+91" ++ d) := by
  have hfmt : formatPhoneNumber phone = d := by
    apply String.ext
    rw [hd, ← filter_isDigit]
    rfl
  have htr : truthy svc.API_KEY = true := (truthy_iff _).2 ⟨key, hkey, hne⟩
  have hv : validatePhoneNumber phone = true := by
    rw [validatePhoneNumber_eq, decide_eq_true_eq, List.countP_eq_length_filter,
      filter_isDigit, ← hd]
    exact h10
  refine ⟨sendRequest svc (formatPhoneNumber phone),
    sendOTP_requests_valid toLowerCase http svc phone htr hv, ?_, ?_⟩
  · simp [sendRequest, hkey, hfmt]
  · intro b hb hs
    simp only [sendOTP, sendOTPTry_valid toLowerCase http svc phone htr hv, hb]
    simp [hs, hfmt]

/-- The scenario of C3: `"98-7654-3210"` answered with `Details: "sess_abc"`. -/
theorem sendOTP_dispatch_witness :
    ∃ req : Request,
      (sendOTP asciiToLowerCase (constHttp ⟨some "Success", some "sess_abc", none⟩)
        (Service.new (some "KEY")) "98-7654-3210").requests = [req] ∧
      req.url = "https://2factor.in/API/V1/KEY/SMS/+919876543210/AUTOGEN/OTP1" ∧
      (sendOTP asciiToLowerCase (constHttp ⟨some "Success", some "sess_abc", none⟩)
        (Service.new (some "KEY")) "98-7654-3210").value =
          .success (some "sess_abc") "OTP sent successfully to your phone number."
            "+919876543210" := by
  obtain ⟨req, h1, h2, h3⟩ := sendOTP_dispatch asciiToLowerCase
    (constHttp ⟨some "Success", some "sess_abc", none⟩) (Service.new (some "KEY"))
    "98-7654-3210" "KEY" "9876543210" rfl (by decide) (by decide) (by decide)
  exact ⟨req, h1, h2.trans (by decide), h3 ⟨some "Success", some "sess_abc", none⟩ rfl rfl⟩

/-! ## Rejection of malformed phone numbers -/

/-- C4 as stated fails when no API key is configured: `sendOTP "12345"` then
returns the configuration message, not the invalid-phone message. -/
theorem sendOTP_invalid_phone_counterexample :
    (sendOTP asciiToLowerCase failingHttp (Service.new none) "12345").value =
      .failure "2Factor.in API key not configured" ∧
    (sendOTP asciiToLowerCase failingHttp (Service.new none) "12345").value ≠
      .failure "Invalid phone number format. Please enter a valid 10-digit number." := by
  decide

/-- C4 (amended): for every phone whose digit count is not 10, `sendOTP` issues no
provider request, and with an API key configured it returns the failure
`Invalid phone number format. Please enter a valid 10-digit number.` -/
theorem sendOTP_invalid_phone (toLowerCase : String → String) (http : Http) (svc : Service)
    (phone : String)
    (hbad : phone.data.countP (fun c => decide (c ∈ asciiDigits)) ≠ 10) :
    (sendOTP toLowerCase http svc phone).requests = [] ∧
    (truthy svc.API_KEY = true →
      (sendOTP toLowerCase http svc phone).value =
        .failure "Invalid phone number format. Please enter a valid 10-digit number.") := by
  have hv : validatePhoneNumber phone = false := by
    rw [validatePhoneNumber_eq, countP_isDigit]
    simp [hbad]
  refine ⟨sendOTP_requests_invalid toLowerCase http svc phone hv, ?_⟩
  intro hkey
  simp [sendOTP, sendOTPTry, hkey, validate_format, hv]

/-- The scenario of C4: `"12345"` with a key configured. -/
theorem sendOTP_invalid_phone_witness :
    (sendOTP asciiToLowerCase failingHttp (Service.new (some "KEY")) "12345").requests = [] ∧
    (sendOTP asciiToLowerCase failingHttp (Service.new (some "KEY")) "12345").value =
      .failure "Invalid phone number format. Please enter a valid 10-digit number." :=
  ⟨(sendOTP_invalid_phone asciiToLowerCase failingHttp (Service.new (some "KEY")) "12345"
      (by decide)).1,
   (sendOTP_invalid_phone asciiToLowerCase failingHttp (Service.new (some "KEY")) "12345"
      (by decide)).2 (by decide)⟩

/-! ## The send-path classifier -/

/-- C5 as stated fails at the empty message: its lowercase form holds none of
the rule substrings, yet the classifier answers `Failed to send OTP`, not `""`. -/
theorem parseErrorMessage_passthrough_counterexample :
    (∀ n ∈ sendRuleSubstrings, includes (asciiToLowerCase "") n = false) ∧
    parseErrorMessage asciiToLowerCase (some "") = "Failed to send OTP" ∧
    parseErrorMessage asciiToLowerCase (some "") ≠ "" := by
  decide

/-- C5 (amended): a non-empty upstream message whose lowercase form contains none
of the rule substrings is returned unchanged by `parseErrorMessage`; an empty or
absent message gives `Failed to send OTP`. -/
theorem parseErrorMessage_passthrough (toLowerCase : String → String) (msg : String)
    (hne : msg ≠ "")
    (hnone : ∀ n ∈ sendRuleSubstrings, ¬ n.data <:+: (toLowerCase msg).data) :
    parseErrorMessage toLowerCase (some msg) = msg ∧
    parseErrorMessage toLowerCase (some "") = "Failed to send OTP" ∧
    parseErrorMessage toLowerCase none = "Failed to send OTP" := by
  have hf : ∀ n ∈ sendRuleSubstrings, includes (toLowerCase msg) n = false :=
    fun n hn => includes_eq_false _ _ (hnone n hn)
  simp only [sendRuleSubstrings, List.mem_cons, List.mem_singleton, List.not_mem_nil, or_false,
    forall_eq_or_imp, forall_eq] at hf
  obtain ⟨h1, h2, h3, h4, h5, h6, h7, h8, h9, h10, h11, h12⟩ := hf
  refine ⟨?_, by simp [parseErrorMessage], by simp [parseErrorMessage]⟩
  simp [parseErrorMessage, hne, h1, h2, h3, h4, h5, h6, h7, h8, h9, h10, h11, h12]

/-- An unrecognised provider text passes through `parseErrorMessage` untouched. -/
theorem parseErrorMessage_passthrough_witness :
    parseErrorMessage asciiToLowerCase (some "Quota Exceeded") = "Quota Exceeded" :=
  (parseErrorMessage_passthrough asciiToLowerCase "Quota Exceeded" (by decide)
    (fun n hn => fun hin =>
      absurd ((includes_iff _ _).2 hin)
        (by
          have hall : ∀ m ∈ sendRuleSubstrings,
              includes (asciiToLowerCase "Quota Exceeded") m = false := by decide
          simp [hall n hn]))).1

/-- C8: whenever the lowercase form of the message contains `invalid number` or
`invalid mobile`, `parseErrorMessage` answers the invalid-phone-number message,
whatever substrings of later rules the message also contains. -/
theorem parseErrorMessage_first_match (toLowerCase : String → String) (msg : String)
    (hlower : toLowerCase "" = "")
    (h : "invalid number".data <:+: (toLowerCase msg).data ∨
      "invalid mobile".data <:+: (toLowerCase msg).data) :
    parseErrorMessage toLowerCase (some msg) =
      "Invalid phone number format. Please check and try again." := by
  have hne : msg ≠ "" := by
    rintro rfl
    rw [hlower] at h
    rcases h with h | h
    · exact absurd ((includes_iff _ _).2 h) (by decide)
    · exact absurd ((includes_iff _ _).2 h) (by decide)
  have hinc : (includes (toLowerCase msg) "invalid number"
      || includes (toLowerCase msg) "invalid mobile") = true := by
    rcases h with h | h
    · simp [(includes_iff _ _).2 h]
    · simp [(includes_iff _ _).2 h]
  simp only [parseErrorMessage, hne, if_false, hinc, if_true]

/-- A message that matches rule 1 and rule 6 at once is classified by rule 1. -/
theorem parseErrorMessage_first_match_witness :
    includes (asciiToLowerCase "Invalid Number - sender BLOCKED") "blocked" = true ∧
    parseErrorMessage asciiToLowerCase (some "Invalid Number - sender BLOCKED") =
      "Invalid phone number format. Please check and try again." :=
  ⟨by decide,
   parseErrorMessage_first_match asciiToLowerCase "Invalid Number - sender BLOCKED" (by decide)
    (Or.inl ((includes_iff _ _).1 (by decide)))⟩

/-! ## The verify-path classifier -/

/-- C6 as stated fails: on absent or empty input `parseVerificationError` answers
`Invalid verification code. Please check and try again.`, which is not the
message it gives to a non-empty input that matches no rule. -/
theorem parseVerificationError_empty_counterexample :
    parseVerificationError asciiToLowerCase none =
      "Invalid verification code. Please check and try again." ∧
    parseVerificationError asciiToLowerCase (some "") =
      "Invalid verification code. Please check and try again." ∧
    parseVerificationError asciiToLowerCase (some "Quota Exceeded") =
      "Verification failed. Please try again or request a new code." ∧
    parseVerificationError asciiToLowerCase none ≠
      parseVerificationError asciiToLowerCase (some "Quota Exceeded") := by
  decide

/-- C6 (amended): for absent or empty input `parseVerificationError` returns the
fixed message `Invalid verification code. Please check and try again.`, which is
neither the no-match default `Verification failed. Please try again or request a
new code.` nor the input itself. -/
theorem parseVerificationError_empty (toLowerCase : String → String)
    (input : Option String) (h : input = none ∨ input = some "") :
    parseVerificationError toLowerCase input =
      "Invalid verification code. Please check and try again." ∧
    parseVerificationError toLowerCase input ≠
      "Verification failed. Please try again or request a new code." ∧
    some (parseVerificationError toLowerCase input) ≠ input := by
  rcases h with rfl | rfl
  · refine ⟨rfl, ?_, by simp⟩
    simp only [parseVerificationError, ne_eq]
    decide
  · refine ⟨by simp [parseVerificationError], ?_, ?_⟩
    · simp only [parseVerificationError, if_true, ne_eq]
      decide
    · simp only [parseVerificationError, if_true, ne_eq, Option.some.injEq]
      decide

/-- The empty string is classified to the fixed empty-input message. -/
theorem parseVerificationError_empty_witness :
    parseVerificationError asciiToLowerCase (some "") =
      "Invalid verification code. Please check and try again." :=
  (parseVerificationError_empty asciiToLowerCase (some "") (Or.inr rfl)).1

/-- C9: for a non-empty session id and a six-digit otp, if the provider answers
the request of `verifyOTP` with a status other than `Success` and a `Details` text
whose lowercase form contains `session not found` or `invalid session` and none of
the substrings of the three earlier rules, the result is the failure
`Verification session not found. Please request a new OTP.` -/
theorem verifyOTP_session_not_found (toLowerCase : String → String) (http : Http)
    (svc : Service) (sessionId otp : String) (req : Request) (b : Body) (details : String)
    (hlower : toLowerCase "" = "")
    (hsid : sessionId ≠ "")
    (hotp : otp.data.length = 6 ∧ ∀ c ∈ otp.data, c ∈ asciiDigits)
    (hreq : req ∈ (verifyOTP toLowerCase http svc sessionId otp).requests)
    (hans : http req = .ok ⟨b⟩)
    (hstatus : b.Status ≠ some "Success")
    (hdetails : b.Details = some details)
    (hrule : "session not found".data <:+: (toLowerCase details).data ∨
      "invalid session".data <:+: (toLowerCase details).data)
    (hprio : ∀ n ∈ verifyEarlierSubstrings, ¬ n.data <:+: (toLowerCase details).data) :
    (verifyOTP toLowerCase http svc sessionId otp).value =
      .failure "Verification session not found. Please request a new OTP." := by
  have hdig : testDigits 6 otp = true := (matchDigits_iff 6 otp.data).2 hotp
  have hkey : truthy svc.API_KEY = true := by
    cases hk : truthy svc.API_KEY
    · simp [verifyOTP, verifyOTPTry, hk] at hreq
    · rfl
  rw [verifyOTP_requests_checked toLowerCase http svc sessionId otp hkey hsid hdig,
    List.mem_singleton] at hreq
  subst hreq
  have hne : details ≠ "" := by
    rintro rfl
    rw [hlower] at hrule
    rcases hrule with h | h
    · exact absurd ((includes_iff _ _).2 h) (by decide)
    · exact absurd ((includes_iff _ _).2 h) (by decide)
  have hf : ∀ n ∈ verifyEarlierSubstrings, includes (toLowerCase details) n = false :=
    fun n hn => includes_eq_false _ _ (hprio n hn)
  simp only [verifyEarlierSubstrings, List.mem_cons, List.mem_singleton, List.not_mem_nil,
    or_false, forall_eq_or_imp, forall_eq] at hf
  obtain ⟨h1, h2, h3, h4, h5, h6, h7⟩ := hf
  have hinc : (includes (toLowerCase details) "session not found"
      || includes (toLowerCase details) "invalid session") = true := by
    rcases hrule with h | h
    · simp [(includes_iff _ _).2 h]
    · simp [(includes_iff _ _).2 h]
  simp only [verifyOTP, verifyOTPTry_checked toLowerCase http svc sessionId otp hkey hsid hdig,
    hans]
  simp [hstatus, hdetails, parseVerificationError, hne, h1, h2, h3, h4, h5, h6, h7, hinc]

/-- The scenario of C9: the provider answers `Failed` / `Session Not Found`. -/
theorem verifyOTP_session_not_found_witness :
    (verifyOTP asciiToLowerCase (constHttp ⟨some "Failed", some "Session Not Found", none⟩)
      (Service.new (some "KEY")) "sess_abc" "123456").value =
      .failure "Verification session not found. Please request a new OTP." :=
  verifyOTP_session_not_found asciiToLowerCase
    (constHttp ⟨some "Failed", some "Session Not Found", none⟩) (Service.new (some "KEY"))
    "sess_abc" "123456"
    (verifyRequest (Service.new (some "KEY")) "sess_abc" "123456")
    ⟨some "Failed", some "Session Not Found", none⟩ "Session Not Found"
    (by decide) (by decide) (by decide) (by decide) rfl (by decide) rfl
    (Or.inl ((includes_iff _ _).1 (by decide)))
    (fun n hn hin => by
      have hall : ∀ m ∈ verifyEarlierSubstrings,
          includes (asciiToLowerCase "Session Not Found") m = false := by decide
      have hyes := (includes_iff _ _).2 hin
      rw [hall n hn] at hyes
      exact Bool.noConfusion hyes)

/-! ## Exceptions without a response body -/

/-- C7 as stated fails: with no API key configured `sendOTP` and `verifyOTP`
return the text of the configuration error itself, not the generic fallback. -/
theorem unclassified_exception_counterexample :
    (sendOTP asciiToLowerCase failingHttp (Service.new none) "9876543210").value =
      .failure "2Factor.in API key not configured" ∧
    (sendOTP asciiToLowerCase failingHttp (Service.new none) "9876543210").value ≠
      .failure "An unexpected error occurred. Please try again." ∧
    (verifyOTP asciiToLowerCase failingHttp (Service.new none) "sess_abc" "123456").value =
      .failure "2Factor.in API key not configured" ∧
    (sendOTP asciiToLowerCase failingHttp (Service.new (some "KEY")) "9876543210").value =
      .failure "socket hang up" := by
  decide

/-- C7 (amended): when the `try` block of `sendOTP` or `verifyOTP` throws an error
`e` whose code is none of `ENOTFOUND`, `ECONNREFUSED`, `ECONNABORTED` and that has
no response, the returned error is the message of `e` when that message is a
non-empty string, and the fixed generic fallback of the operation when `e` has no
message or an empty one; with no API key configured both operations return
`2Factor.in API key not configured`. -/
theorem unclassified_exception (toLowerCase : String → String) (http : Http) (svc : Service)
    (e : JSError) (hc1 : e.code ≠ some "ENOTFOUND") (hc2 : e.code ≠ some "ECONNREFUSED")
    (hc3 : e.code ≠ some "ECONNABORTED") (hresp : e.response = none) :
    (∀ phone : String, (sendOTPTry toLowerCase http svc phone).value = .error e →
      (∀ m : String, e.message = some m → m ≠ "" →
        (sendOTP toLowerCase http svc phone).value = .failure m) ∧
      (e.message = none ∨ e.message = some "" →
        (sendOTP toLowerCase http svc phone).value =
          .failure "An unexpected error occurred. Please try again.")) ∧
    (∀ sessionId otp : String,
      (verifyOTPTry toLowerCase http svc sessionId otp).value = .error e →
      (∀ m : String, e.message = some m → m ≠ "" →
        (verifyOTP toLowerCase http svc sessionId otp).value = .failure m) ∧
      (e.message = none ∨ e.message = some "" →
        (verifyOTP toLowerCase http svc sessionId otp).value =
          .failure "An unexpected error occurred during verification. Please try again.")) ∧
    (truthy svc.API_KEY = false → ∀ phone sessionId otp : String,
      (sendOTP toLowerCase http svc phone).value =
        .failure "2Factor.in API key not configured" ∧
      (verifyOTP toLowerCase http svc sessionId otp).value =
        .failure "2Factor.in API key not configured") := by
  refine ⟨?_, ?_, ?_⟩
  · intro phone htry
    have hval : (sendOTP toLowerCase http svc phone).value = sendOTPCatch toLowerCase e := by
      simp [sendOTP, htry]
    rw [hval]
    constructor
    · intro m hm hne
      simp [sendOTPCatch, hc1, hc2, hc3, hresp, hm, jsOrDefault, hne]
    · rintro (hm | hm) <;> simp [sendOTPCatch, hc1, hc2, hc3, hresp, hm, jsOrDefault]
  · intro sessionId otp htry
    have hval : (verifyOTP toLowerCase http svc sessionId otp).value =
        verifyOTPCatch toLowerCase e := by
      simp [verifyOTP, htry]
    rw [hval]
    constructor
    · intro m hm hne
      simp [verifyOTPCatch, hc1, hc2, hc3, hresp, hm, jsOrDefault, hne]
    · rintro (hm | hm) <;> simp [verifyOTPCatch, hc1, hc2, hc3, hresp, hm, jsOrDefault]
  · intro hkey phone sessionId otp
    constructor
    · simp only [sendOTP, sendOTPTry, hkey, Bool.not_false, if_true]
      rfl
    · simp only [verifyOTP, verifyOTPTry, hkey, Bool.not_false, if_true]
      rfl

/-- The missing-key error reaches the caller with its own message. -/
theorem unclassified_exception_witness :
    (sendOTP asciiToLowerCase failingHttp (Service.new none) "9876543210").value =
      .failure "2Factor.in API key not configured" :=
  ((unclassified_exception asciiToLowerCase failingHttp (Service.new none)
    (JSError.ofMessage "2Factor.in API key not configured")
    (by decide) (by decide) (by decide) rfl).1 "9876543210" rfl).1
    "2Factor.in API key not configured" rfl (by decide)

/-! ## Shape of every result -/

theorem parseErrorMessage_ne_empty (toLowerCase : String → String) (m : Option String) :
    parseErrorMessage toLowerCase m ≠ "" := by
  unfold parseErrorMessage
  split
  · decide
  · rename_i msg
    by_cases hm : msg = ""
    · simp only [hm, if_true]
      decide
    · simp only [hm, if_false]
      repeat' split
      all_goals first | exact hm | decide

theorem parseVerificationError_ne_empty (toLowerCase : String → String) (m : Option String) :
    parseVerificationError toLowerCase m ≠ "" := by
  unfold parseVerificationError
  split
  · decide
  · rename_i msg
    by_cases hm : msg = ""
    · simp only [hm, if_true]
      decide
    · simp only [hm, if_false]
      repeat' split
      all_goals decide

theorem jsOrDefault_ne_empty (a : Option String) (d : String) (hd : d ≠ "") :
    jsOrDefault a d ≠ "" := by
  unfold jsOrDefault
  split
  · exact hd
  · split
    · assumption
    · exact hd

theorem sendOTPCatch_shape (toLowerCase : String → String) (e : JSError) :
    ∃ err, sendOTPCatch toLowerCase e = .failure err ∧ err ≠ "" := by
  unfold sendOTPCatch
  split
  · exact ⟨_, rfl, by decide⟩
  · split
    · exact ⟨_, rfl, by decide⟩
    · split
      · exact ⟨_, rfl, parseErrorMessage_ne_empty _ _⟩
      · exact ⟨_, rfl, jsOrDefault_ne_empty _ _ (by decide)⟩

theorem verifyOTPCatch_shape (toLowerCase : String → String) (e : JSError) :
    ∃ err, verifyOTPCatch toLowerCase e = .failure err ∧ err ≠ "" := by
  unfold verifyOTPCatch
  split
  · exact ⟨_, rfl, by decide⟩
  · split
    · exact ⟨_, rfl, by decide⟩
    · split
      · exact ⟨_, rfl, parseVerificationError_ne_empty _ _⟩
      · exact ⟨_, rfl, jsOrDefault_ne_empty _ _ (by decide)⟩

/-- C10: whatever the phone, session id, otp, API key, provider answer or thrown
error, the value of `sendOTP` and of `verifyOTP` is one of the two variants, and a
failure always carries a non-empty error string. -/
theorem results_well_formed (toLowerCase : String → String) (http : Http) (svc : Service)
    (phone sessionId otp : String) :
    ((∃ sid msg ph, (sendOTP toLowerCase http svc phone).value = .success sid msg ph) ∨
      (∃ err, (sendOTP toLowerCase http svc phone).value = .failure err ∧ err ≠ "")) ∧
    ((∃ msg, (verifyOTP toLowerCase http svc sessionId otp).value = .success msg) ∨
      (∃ err, (verifyOTP toLowerCase http svc sessionId otp).value = .failure err ∧
        err ≠ "")) := by
  constructor
  · unfold sendOTP sendOTPTry
    by_cases hkey : truthy svc.API_KEY = true
    · by_cases hv : validatePhoneNumber (formatPhoneNumber phone) = true
      · simp only [hkey, hv, Bool.not_true, Bool.false_eq_true, if_false]
        cases http (sendRequest svc (formatPhoneNumber phone)) with
        | error e => exact Or.inr (sendOTPCatch_shape toLowerCase e)
        | ok response =>
          by_cases hs : response.data.Status = some "Success"
          · simp only [hs, if_true]
            exact Or.inl ⟨_, _, _, rfl⟩
          · simp only [hs, if_false]
            exact Or.inr ⟨_, rfl, parseErrorMessage_ne_empty _ _⟩
      · simp only [hkey, hv, Bool.not_true, Bool.false_eq_true, if_false, Bool.not_false,
          if_true]
        exact Or.inr ⟨_, rfl, by decide⟩
    · simp only [hkey, Bool.not_false, if_true]
      exact Or.inr (sendOTPCatch_shape toLowerCase _)
  · unfold verifyOTP verifyOTPTry
    by_cases hkey : truthy svc.API_KEY = true
    · by_cases hsid : sessionId = ""
      · simp only [hkey, hsid, Bool.not_true, Bool.false_eq_true, if_false, if_true]
        exact Or.inr ⟨_, rfl, by decide⟩
      · by_cases hotp : otp = "" ∨ (!testDigits 6 otp) = true
        · simp only [hkey, hsid, hotp, Bool.not_true, Bool.false_eq_true, if_false, if_true]
          exact Or.inr ⟨_, rfl, by decide⟩
        · simp only [hkey, hsid, hotp, Bool.not_true, Bool.false_eq_true, if_false]
          cases http (verifyRequest svc sessionId otp) with
          | error e => exact Or.inr (verifyOTPCatch_shape toLowerCase e)
          | ok response =>
            by_cases hs : response.data.Status = some "Success"
            · simp only [hs, if_true]
              exact Or.inl ⟨_, rfl⟩
            · simp only [hs, if_false]
              exact Or.inr ⟨_, rfl, parseVerificationError_ne_empty _ _⟩
    · simp only [hkey, Bool.not_false, if_true]
      exact Or.inr (verifyOTPCatch_shape toLowerCase _)

end OTPService
